import Mathlib

/-!
Shallow embedding of the ticket issuance and gate-scanning core of the
Event-Ticket repository (server routes in `registerRoutes` and the
`DatabaseStorage` layer in `src/server/storage.ts`), together with proofs
about the embedded operations.

The database is modelled as an explicit `Store` value; each storage method
becomes a pure function on `Store`.  The `ticket_code` unique index declared
in the schema is modelled inside `createTicket`, which fails exactly when the
inserted code is already present.  Timestamps are passed in as natural
numbers; the nondeterministic `generateTicketCode()` calls made by the
payment-verification route are modelled by a stream `codes : Nat → String`
giving the code produced by the n-th call.
-/

namespace EventTicket

/-- Ticket status enum (`ticket_status` pg enum in the schema). -/
inductive TicketStatus
  | pending
  | confirmed
  | cancelled
  | refunded
  | scanned
deriving DecidableEq, Repr

/-- Payment status enum (`payment_status` pg enum in the schema). -/
inductive PaymentStatus
  | pending
  | completed
  | failed
  | refunded
deriving DecidableEq, Repr

/-- A ticket tier row (`ticket_tiers` table); fields the core reads/writes. -/
structure TicketTier where
  id : String
  eventId : String
  price : ℚ
  quantity : Nat
  soldCount : Nat
  isActive : Bool
deriving DecidableEq, Repr

/-- One cart line as stored in `Payment.metadata.items`
(`{tierId, quantity, price}` in the create-order request body). -/
structure CartItem where
  tierId : String
  quantity : Nat
  price : ℚ
deriving DecidableEq, Repr

/-- A payment row (`payments` table); fields the core reads/writes.
`items` is the `metadata.items` cart snapshot. -/
structure Payment where
  id : String
  userId : String
  eventId : String
  razorpayOrderId : Option String
  razorpayPaymentId : Option String
  razorpaySignature : Option String
  amount : ℚ
  ticketQuantity : Nat
  status : PaymentStatus
  items : List CartItem
  completedAt : Option Nat
deriving DecidableEq, Repr

/-- A ticket row (`tickets` table); fields the core reads/writes. -/
structure Ticket where
  id : Nat
  ticketTierId : String
  userId : String
  paymentId : Option String
  ticketCode : String
  status : TicketStatus
  scannedAt : Option Nat
  scannedByUserId : Option String
  purchasedAt : Option Nat
deriving DecidableEq, Repr

/-- An entry-scan audit row (`entry_scans` table). -/
structure EntryScan where
  ticketId : Nat
  scannedByUserId : String
  eventId : String
  scanResult : String
  scannedAt : Nat
deriving DecidableEq, Repr

/-- The database state: the four tables the core touches, plus counters
standing in for `gen_random_uuid()` primary-key generation. -/
structure Store where
  tiers : List TicketTier
  tickets : List Ticket
  payments : List Payment
  entryScans : List EntryScan
  nextTicketId : Nat
  nextPaymentId : Nat
deriving DecidableEq, Repr

/-- `storage.getTicketTier`: first tier row with the given id. -/
def getTicketTier (s : Store) (id : String) : Option TicketTier :=
  s.tiers.find? (fun t => t.id == id)

/-- `storage.getTicketByCode`: first ticket row with the given code. -/
def getTicketByCode (s : Store) (code : String) : Option Ticket :=
  s.tickets.find? (fun t => t.ticketCode == code)

/-- `storage.getPayment`: first payment row with the given id. -/
def getPayment (s : Store) (id : String) : Option Payment :=
  s.payments.find? (fun p => p.id == id)

/-- `storage.getPaymentByRazorpayOrderId`. -/
def getPaymentByRazorpayOrderId (s : Store) (orderId : String) : Option Payment :=
  s.payments.find? (fun p => p.razorpayOrderId == some orderId)

/-- `storage.updateTicketTierSoldCount`: sets
`soldCount := soldCount + increment` on the matching row (an unconditional
`UPDATE ... SET sold_count = sold_count + increment WHERE id = id`) and
returns the updated row. -/
def updateTicketTierSoldCount (s : Store) (id : String) (increment : Nat) :
    Store × Option TicketTier :=
  let tiers := s.tiers.map (fun t =>
    if t.id == id then { t with soldCount := t.soldCount + increment } else t)
  ({ s with tiers := tiers }, tiers.find? (fun t => t.id == id))

/-- Insert data for `storage.createTicket` (the fields the payment route
passes). -/
structure InsertTicket where
  ticketTierId : String
  userId : String
  paymentId : Option String
  ticketCode : String
  status : TicketStatus
  purchasedAt : Option Nat
deriving DecidableEq, Repr

/-- `storage.createTicket`: inserts a ticket row.  The schema declares a
unique index on `ticket_code`, so the insert throws when the code is already
present; this is modelled as `Except.error`. -/
def createTicket (s : Store) (data : InsertTicket) : Except String (Store × Ticket) :=
  if s.tickets.any (fun t => t.ticketCode == data.ticketCode) then
    Except.error "duplicate key value violates unique index ticket_code_idx"
  else
    let ticket : Ticket :=
      { id := s.nextTicketId
        ticketTierId := data.ticketTierId
        userId := data.userId
        paymentId := data.paymentId
        ticketCode := data.ticketCode
        status := data.status
        scannedAt := none
        scannedByUserId := none
        purchasedAt := data.purchasedAt }
    Except.ok
      ({ s with tickets := s.tickets ++ [ticket], nextTicketId := s.nextTicketId + 1 },
       ticket)

/-- `storage.updateTicket` as invoked by the scan route: sets
`status`, `scannedAt` and `scannedByUserId` on the matching row. -/
def updateTicket (s : Store) (id : Nat) (status : TicketStatus)
    (scannedAt : Nat) (scannedByUserId : String) : Store :=
  { s with tickets := s.tickets.map (fun t =>
      if t.id == id then
        { t with status := status, scannedAt := some scannedAt,
                 scannedByUserId := some scannedByUserId }
      else t) }

/-- `storage.createEntryScan`: appends an audit row. -/
def createEntryScan (s : Store) (scan : EntryScan) : Store :=
  { s with entryScans := s.entryScans ++ [scan] }

/-- `storage.createPayment` as invoked by the create-order route. -/
def createPayment (s : Store) (userId eventId : String) (amount : ℚ)
    (ticketQuantity : Nat) (items : List CartItem) : Store × Payment :=
  let payment : Payment :=
    { id := toString s.nextPaymentId
      userId := userId
      eventId := eventId
      razorpayOrderId := none
      razorpayPaymentId := none
      razorpaySignature := none
      amount := amount
      ticketQuantity := ticketQuantity
      status := PaymentStatus.pending
      items := items
      completedAt := none }
  ({ s with payments := s.payments ++ [payment], nextPaymentId := s.nextPaymentId + 1 },
   payment)

/-- `storage.updatePayment` as invoked by the payment-verification route:
stores the gateway ids, marks the payment `completed` and stamps
`completedAt`. -/
def updatePaymentVerify (s : Store) (id razorpayPaymentId razorpaySignature : String)
    (now : Nat) : Store :=
  { s with payments := s.payments.map (fun p =>
      if p.id == id then
        { p with razorpayPaymentId := some razorpayPaymentId,
                 razorpaySignature := some razorpaySignature,
                 status := PaymentStatus.completed,
                 completedAt := some now }
      else p) }

/-- `storage.updatePayment` as invoked by the create-order route: stores the
simulated gateway order id. -/
def updatePaymentOrderId (s : Store) (id razorpayOrderId : String) : Store :=
  { s with payments := s.payments.map (fun p =>
      if p.id == id then { p with razorpayOrderId := some razorpayOrderId } else p) }

/-- The alphabet of `generateTicketCode` (`storage.ts`): 32 characters with
the visually confusable 0/O/1/I removed. -/
def ticketCodeChars : List Char := "ABCDEFGHJKLMNPQRSTUVWXYZ23456789".toList

/-- `generateTicketCode` (`storage.ts`): 8 characters drawn from
`ticketCodeChars`; the `Math.random()` draws are supplied as `rand`
(each `Math.floor(Math.random() * chars.length)` value, reduced mod 32 to
match its range). -/
def generateTicketCode (rand : Nat → Nat) : String :=
  String.mk ((List.range 8).map (fun i => ticketCodeChars.getD (rand i % 32) 'A'))

/-- Response body of `POST /api/payments/create-order`. -/
structure CreateOrderResponse where
  orderId : String
  razorpayOrderId : String
  amount : ℚ
  currency : String
deriving DecidableEq, Repr

/-- `POST /api/payments/create-order` handler: sums
`item.price * item.quantity` over the request's items, creates a pending
payment with `metadata = { items }`, then stores the simulated gateway order
id `order_<paymentId>`. -/
def createOrder (s : Store) (userId eventId : String) (items : List CartItem) :
    Store × CreateOrderResponse :=
  let totalAmount : ℚ := items.foldl (fun acc item => acc + item.price * item.quantity) 0
  let totalTickets : Nat := items.foldl (fun acc item => acc + item.quantity) 0
  let res := createPayment s userId eventId totalAmount totalTickets items
  let payment := res.2
  let razorpayOrderId := "order_" ++ payment.id
  let s2 := updatePaymentOrderId res.1 payment.id razorpayOrderId
  (s2,
   { orderId := payment.id
     razorpayOrderId := razorpayOrderId
     amount := totalAmount
     currency := "INR" })

/-- Outcome of `POST /api/payments/verify`: 404 when the order id does not
resolve, the JSON ticket list on success, 500 when a storage call throws
(the route's `catch` block). -/
inductive VerifyPaymentResult
  | notFound
  | ok (tickets : List Ticket)
  | serverError
deriving DecidableEq, Repr

/-- The inner `for (let i = 0; i < item.quantity; i++)` loop of the
payment-verification route: creates `count` tickets for one cart line,
drawing codes from the stream starting at call index `ctr`.  `Sum.inr`
carries the (partially mutated) store when `createTicket` throws. -/
def createTicketsLoop (s : Store) (userId paymentId tierId : String) (count : Nat)
    (codes : Nat → String) (ctr : Nat) (now : Nat) :
    (Store × Nat × List Ticket) ⊕ Store :=
  match count with
  | 0 => Sum.inl (s, ctr, [])
  | Nat.succ n =>
    match createTicket s
        { ticketTierId := tierId, userId := userId, paymentId := some paymentId,
          ticketCode := codes ctr, status := TicketStatus.confirmed,
          purchasedAt := some now } with
    | Except.error _ => Sum.inr s
    | Except.ok (s1, t) =>
      match createTicketsLoop s1 userId paymentId tierId n codes (ctr + 1) now with
      | Sum.inl (s2, ctr2, ts) => Sum.inl (s2, ctr2, t :: ts)
      | Sum.inr s2 => Sum.inr s2

/-- The outer `for (const item of metadata.items)` loop of the
payment-verification route: per line, create one ticket per unit, then call
`updateTicketTierSoldCount(item.tierId, item.quantity)`. -/
def issueItems (s : Store) (userId paymentId : String) (items : List CartItem)
    (codes : Nat → String) (ctr : Nat) (now : Nat) :
    (Store × Nat × List Ticket) ⊕ Store :=
  match items with
  | [] => Sum.inl (s, ctr, [])
  | item :: rest =>
    match createTicketsLoop s userId paymentId item.tierId item.quantity codes ctr now with
    | Sum.inr s1 => Sum.inr s1
    | Sum.inl (s1, ctr1, ts) =>
      let s2 := (updateTicketTierSoldCount s1 item.tierId item.quantity).1
      match issueItems s2 userId paymentId rest codes ctr1 now with
      | Sum.inr s3 => Sum.inr s3
      | Sum.inl (s3, ctr3, ts2) => Sum.inl (s3, ctr3, ts ++ ts2)

/-- `POST /api/payments/verify` handler: looks up the payment by gateway
order id (404 if absent), stores the gateway payment id and signature and
marks the payment `completed` (the signature is never checked — the source
comments "For now, we'll simulate successful verification"), then creates
one confirmed ticket per unit of the metadata cart snapshot and bumps each
tier's sold count. -/
def verifyPayment (s : Store) (userId razorpayOrderId razorpayPaymentId razorpaySignature : String)
    (codes : Nat → String) (now : Nat) : Store × VerifyPaymentResult :=
  match getPaymentByRazorpayOrderId s razorpayOrderId with
  | none => (s, VerifyPaymentResult.notFound)
  | some payment =>
    let s1 := updatePaymentVerify s payment.id razorpayPaymentId razorpaySignature now
    match issueItems s1 userId payment.id payment.items codes 0 now with
    | Sum.inr s2 => (s2, VerifyPaymentResult.serverError)
    | Sum.inl (s2, _, tickets) => (s2, VerifyPaymentResult.ok tickets)

/-- Response body of `POST /api/scans/verify`.  `ticket` is the row the
route spreads into the response (attached on `already_scanned` and
`success`, absent otherwise); on `success` it is the row as read before the
update, exactly as in the source. -/
structure ScanResponse where
  success : Bool
  scanResult : String
  ticket : Option Ticket
deriving DecidableEq, Repr

/-- `POST /api/scans/verify` handler, in source order: code lookup
(`invalid`), tier/event check (`wrong_event`), scanned check
(`already_scanned`), cancelled/refunded check (`expired`), else mark the
ticket scanned and append a `success` EntryScan row. -/
def verifyScan (s : Store) (userId ticketCode eventId : String) (now : Nat) :
    Store × ScanResponse :=
  match getTicketByCode s ticketCode with
  | none => (s, { success := false, scanResult := "invalid", ticket := none })
  | some ticket =>
    match getTicketTier s ticket.ticketTierId with
    | none => (s, { success := false, scanResult := "wrong_event", ticket := none })
    | some tier =>
      if tier.eventId ≠ eventId then
        (s, { success := false, scanResult := "wrong_event", ticket := none })
      else if ticket.status = TicketStatus.scanned then
        (s, { success := false, scanResult := "already_scanned", ticket := some ticket })
      else if ticket.status = TicketStatus.cancelled ∨ ticket.status = TicketStatus.refunded then
        (s, { success := false, scanResult := "expired", ticket := none })
      else
        let s1 := updateTicket s ticket.id TicketStatus.scanned now userId
        let s2 := createEntryScan s1
          { ticketId := ticket.id, scannedByUserId := userId,
            eventId := eventId, scanResult := "success", scannedAt := now }
        (s2, { success := true, scanResult := "success", ticket := some ticket })

/-! ### Helper definitions and lemmas -/

/-- The store an issuance loop leaves behind, whether it finished
(`Sum.inl`) or threw mid-way (`Sum.inr`). -/
def storeOf : (Store × Nat × List Ticket) ⊕ Store → Store
  | Sum.inl x => x.1
  | Sum.inr s => s

/-- The ticket rows a successful run of `createTicketsLoop` inserts:
`count` confirmed tickets with consecutive ids from `startId` and codes
drawn from the stream starting at call index `ctr`. -/
def mkIssuedTickets (startId : Nat) (tierId userId paymentId : String)
    (codes : Nat → String) (ctr count : Nat) (now : Nat) : List Ticket :=
  match count with
  | 0 => []
  | Nat.succ n =>
    { id := startId
      ticketTierId := tierId
      userId := userId
      paymentId := some paymentId
      ticketCode := codes ctr
      status := TicketStatus.confirmed
      scannedAt := none
      scannedByUserId := none
      purchasedAt := some now } ::
      mkIssuedTickets (startId + 1) tierId userId paymentId codes (ctr + 1) n now

/-- The codes drawn in the window `[ctr, ctr + count)` avoid every code
already present in `tks` and are pairwise distinct. -/
def FreshCodes (tks : List Ticket) (codes : Nat → String) (ctr count : Nat) : Prop :=
  (∀ i, i < count → ∀ t ∈ tks, t.ticketCode ≠ codes (ctr + i)) ∧
  (∀ i, i < count → ∀ j, j < count → i ≠ j → codes (ctr + i) ≠ codes (ctr + j))

theorem mkIssuedTickets_length (tierId userId paymentId : String)
    (codes : Nat → String) (now : Nat) :
    ∀ (count startId ctr : Nat),
      (mkIssuedTickets startId tierId userId paymentId codes ctr count now).length = count
  | 0, _, _ => rfl
  | Nat.succ n, startId, ctr => by
    simp [mkIssuedTickets, mkIssuedTickets_length tierId userId paymentId codes now n]

theorem mkIssuedTickets_mem (tierId userId paymentId : String)
    (codes : Nat → String) (now : Nat) :
    ∀ (count startId ctr : Nat) (t : Ticket),
      t ∈ mkIssuedTickets startId tierId userId paymentId codes ctr count now →
      t.status = TicketStatus.confirmed ∧ t.paymentId = some paymentId ∧
        t.userId = userId ∧ t.ticketTierId = tierId
  | 0, _, _, _, ht => by simp [mkIssuedTickets] at ht
  | Nat.succ n, startId, ctr, t, ht => by
    rcases List.mem_cons.mp ht with h | h
    · subst h; exact ⟨rfl, rfl, rfl, rfl⟩
    · exact mkIssuedTickets_mem tierId userId paymentId codes now n (startId + 1) (ctr + 1) t h

/-- `getTicketTier` only ever returns a row whose `id` field matches the
requested id. -/
theorem getTicketTier_id (s : Store) (x : String) (t : TicketTier)
    (h : getTicketTier s x = some t) : t.id = x := by
  have := List.find?_some h
  simpa using this

/-- `getTicketByCode` only ever returns a row whose `ticketCode` matches. -/
theorem getTicketByCode_code (s : Store) (c : String) (t : Ticket)
    (h : getTicketByCode s c = some t) : t.ticketCode = c := by
  have := List.find?_some h
  simpa using this

/-- Updating a ticket row rewrites `getTicketByCode` pointwise: the lookup
finds the image of the row it found before, because the update preserves
every `ticketCode`. -/
theorem getTicketByCode_updateTicket (s : Store) (id : Nat) (st : TicketStatus)
    (n : Nat) (u c : String) :
    getTicketByCode (updateTicket s id st n u) c
      = (getTicketByCode s c).map (fun t =>
          if t.id == id then
            { t with status := st, scannedAt := some n, scannedByUserId := some u }
          else t) := by
  simp only [getTicketByCode, updateTicket]
  rw [List.find?_map]
  have hp : ((fun t : Ticket => t.ticketCode == c) ∘ (fun t =>
      if t.id == id then
        { t with status := st, scannedAt := some n, scannedByUserId := some u }
      else t)) = (fun t : Ticket => t.ticketCode == c) := by
    funext t
    by_cases h : t.id == id <;> simp [Function.comp, h]
  rw [hp]

/-- Bumping a tier's sold count rewrites `getTicketTier` pointwise: the
lookup finds the image of the row it found before, because the update
preserves every tier `id`. -/
theorem getTicketTier_updateSoldCount (s : Store) (id : String) (inc : Nat)
    (x : String) :
    getTicketTier (updateTicketTierSoldCount s id inc).1 x
      = (getTicketTier s x).map (fun t =>
          if t.id == id then { t with soldCount := t.soldCount + inc } else t) := by
  simp only [getTicketTier, updateTicketTierSoldCount]
  rw [List.find?_map]
  have hp : ((fun t : TicketTier => t.id == x) ∘ (fun t =>
      if t.id == id then { t with soldCount := t.soldCount + inc } else t))
      = (fun t : TicketTier => t.id == x) := by
    funext t
    by_cases h : t.id == id <;> simp [Function.comp, h]
  rw [hp]

/-- A successful `createTicket` only touches the tickets table and the id
counter. -/
theorem createTicket_ok_frame (s : Store) (d : InsertTicket) (s1 : Store) (t : Ticket)
    (h : createTicket s d = Except.ok (s1, t)) :
    s1.payments = s.payments ∧ s1.tiers = s.tiers ∧ s1.entryScans = s.entryScans := by
  simp only [createTicket] at h
  by_cases hc : s.tickets.any (fun t => t.ticketCode == d.ticketCode)
  · simp [hc] at h
  · simp only [hc, Bool.false_eq_true, if_false, Except.ok.injEq, Prod.mk.injEq] at h
    rw [← h.1]
    exact ⟨rfl, rfl, rfl⟩

/-- When every code drawn in the window is fresh, the inner per-line loop
succeeds and appends exactly the `mkIssuedTickets` rows. -/
theorem createTicketsLoop_spec (userId paymentId tierId : String)
    (codes : Nat → String) (now : Nat) :
    ∀ (count : Nat) (s : Store) (ctr : Nat),
      FreshCodes s.tickets codes ctr count →
      createTicketsLoop s userId paymentId tierId count codes ctr now =
        Sum.inl
          ({ s with
              tickets := s.tickets ++
                mkIssuedTickets s.nextTicketId tierId userId paymentId codes ctr count now
              nextTicketId := s.nextTicketId + count },
           ctr + count,
           mkIssuedTickets s.nextTicketId tierId userId paymentId codes ctr count now)
  | 0, s, ctr, _ => by
    simp [createTicketsLoop, mkIssuedTickets]
  | Nat.succ n, s, ctr, hfresh => by
    have h0 : (s.tickets.any (fun t => t.ticketCode == codes ctr)) = false := by
      rw [List.any_eq_false]
      intro t ht
      simpa using hfresh.1 0 (Nat.succ_pos n) t ht
    have hfresh1 : FreshCodes (s.tickets ++
        [{ id := s.nextTicketId
           ticketTierId := tierId
           userId := userId
           paymentId := some paymentId
           ticketCode := codes ctr
           status := TicketStatus.confirmed
           scannedAt := none
           scannedByUserId := none
           purchasedAt := some now }]) codes (ctr + 1) n := by
      constructor
      · intro i hi t ht
        rcases List.mem_append.mp ht with hmem | hmem
        · have h := hfresh.1 (i + 1) (by omega) t hmem
          have e : ctr + (i + 1) = ctr + 1 + i := by omega
          rwa [e] at h
        · have ht0 := List.mem_singleton.mp hmem
          subst ht0
          have h := hfresh.2 0 (by omega) (i + 1) (by omega) (by omega)
          have e1 : ctr + 0 = ctr := by omega
          have e2 : ctr + (i + 1) = ctr + 1 + i := by omega
          rw [e1, e2] at h
          exact h
      · intro i hi j hj hij
        have h := hfresh.2 (i + 1) (by omega) (j + 1) (by omega) (by omega)
        have e1 : ctr + (i + 1) = ctr + 1 + i := by omega
        have e2 : ctr + (j + 1) = ctr + 1 + j := by omega
        rwa [e1, e2] at h
    have ih := createTicketsLoop_spec userId paymentId tierId codes now n
      ({ s with
          tickets := s.tickets ++
            [{ id := s.nextTicketId
               ticketTierId := tierId
               userId := userId
               paymentId := some paymentId
               ticketCode := codes ctr
               status := TicketStatus.confirmed
               scannedAt := none
               scannedByUserId := none
               purchasedAt := some now }]
          nextTicketId := s.nextTicketId + 1 }) (ctr + 1) hfresh1
    simp only [createTicketsLoop, createTicket, h0, Bool.false_eq_true, if_false]
    rw [ih]
    simp only [mkIssuedTickets, Store.mk.injEq, Sum.inl.injEq, Prod.mk.injEq,
      List.append_assoc, List.singleton_append, true_and, and_true]
    omega

/-- The inner issuance loop never touches the payments table. -/
theorem createTicketsLoop_payments (userId paymentId tierId : String)
    (codes : Nat → String) (now : Nat) :
    ∀ (count : Nat) (s : Store) (ctr : Nat),
      (storeOf (createTicketsLoop s userId paymentId tierId count codes ctr now)).payments
        = s.payments
  | 0, _, _ => rfl
  | Nat.succ n, s, ctr => by
    simp only [createTicketsLoop]
    cases hct : createTicket s
        { ticketTierId := tierId, userId := userId, paymentId := some paymentId,
          ticketCode := codes ctr, status := TicketStatus.confirmed,
          purchasedAt := some now } with
    | error e => simp [storeOf]
    | ok p =>
      obtain ⟨s1, t⟩ := p
      have hframe := createTicket_ok_frame s _ s1 t hct
      have ih := createTicketsLoop_payments userId paymentId tierId codes now n s1 (ctr + 1)
      cases hrec : createTicketsLoop s1 userId paymentId tierId n codes (ctr + 1) now with
      | inl q =>
        obtain ⟨s2, ctr2, ts⟩ := q
        rw [hrec] at ih
        simp only [hrec]
        exact ih.trans hframe.1
      | inr s2 =>
        rw [hrec] at ih
        simp only [hrec]
        exact ih.trans hframe.1

/-- The outer issuance loop never touches the payments table
(`updateTicketTierSoldCount` only rewrites tiers). -/
theorem issueItems_payments (userId paymentId : String)
    (codes : Nat → String) (now : Nat) :
    ∀ (items : List CartItem) (s : Store) (ctr : Nat),
      (storeOf (issueItems s userId paymentId items codes ctr now)).payments = s.payments
  | [], _, _ => rfl
  | item :: rest, s, ctr => by
    simp only [issueItems]
    have h1 := createTicketsLoop_payments userId paymentId item.tierId codes now
      item.quantity s ctr
    cases hct : createTicketsLoop s userId paymentId item.tierId item.quantity codes ctr now with
    | inr s1 =>
      rw [hct] at h1
      simpa [storeOf] using h1
    | inl q =>
      obtain ⟨s1, ctr1, ts⟩ := q
      rw [hct] at h1
      simp only [storeOf] at h1
      have ih := issueItems_payments userId paymentId codes now rest
        (updateTicketTierSoldCount s1 item.tierId item.quantity).1 ctr1
      have h2 : ((updateTicketTierSoldCount s1 item.tierId item.quantity).1).payments
          = s1.payments := rfl
      cases hrec : issueItems (updateTicketTierSoldCount s1 item.tierId item.quantity).1
          userId paymentId rest codes ctr1 now with
      | inl q2 =>
        obtain ⟨s3, ctr3, ts2⟩ := q2
        rw [hrec] at ih
        simp only [hrec]
        exact ih.trans (h2.trans h1)
      | inr s3 =>
        rw [hrec] at ih
        simp only [hrec]
        exact ih.trans (h2.trans h1)

/-! ### Claim theorems -/

/-- C8: for every ticket code not present in the store, `verifyScan` returns
`success := false` with `scanResult = "invalid"` and no ticket attached, and
returns the store unchanged: no Ticket row is mutated and no EntryScan row is
created. -/
theorem scan_unknown_code_invalid (s : Store) (u c e : String) (now : Nat)
    (h : getTicketByCode s c = none) :
    verifyScan s u c e now
      = (s, { success := false, scanResult := "invalid", ticket := none }) := by
  simp [verifyScan, h]

/-- Witness for C8: scanning the absent code "ABCD1234" on a concrete store. -/
theorem scan_unknown_code_invalid_witness :
    verifyScan
        { tiers := [], tickets := [], payments := [], entryScans := [],
          nextTicketId := 0, nextPaymentId := 0 } "gate" "ABCD1234" "e1" 3
      = ({ tiers := [], tickets := [], payments := [], entryScans := [],
           nextTicketId := 0, nextPaymentId := 0 },
         { success := false, scanResult := "invalid", ticket := none }) :=
  scan_unknown_code_invalid _ "gate" "ABCD1234" "e1" 3 rfl

/-- C5: the wrong-event check precedes the already-scanned check: whenever
the scanned code resolves to a ticket whose tier belongs to event `e1` and
the scan targets a different event `e2`, the outcome is `wrong_event` — for
every ticket status, in particular for tickets already scanned — and the
store is unchanged. -/
theorem scan_wrong_event_precedes_already_scanned (s : Store) (u c e1 e2 : String)
    (now : Nat) (tk : Ticket) (tier : TicketTier)
    (hfind : getTicketByCode s c = some tk)
    (htier : getTicketTier s tk.ticketTierId = some tier)
    (hev : tier.eventId = e1)
    (hne : e2 ≠ e1) :
    verifyScan s u c e2 now
      = (s, { success := false, scanResult := "wrong_event", ticket := none }) := by
  have hcond : tier.eventId ≠ e2 := by
    rw [hev]
    exact fun h => hne h.symm
  simp only [verifyScan, hfind, htier]
  rw [if_pos hcond]

/-- The tier used by the C5 witness. -/
def c5Tier : TicketTier :=
  { id := "tier1", eventId := "E1", price := 0, quantity := 10, soldCount := 1, isActive := true }

/-- The ticket used by the C5 witness: already scanned at its own event E1. -/
def c5Ticket : Ticket :=
  { id := 0
    ticketTierId := "tier1"
    userId := "u1"
    paymentId := none
    ticketCode := "SCANCODE"
    status := TicketStatus.scanned
    scannedAt := some 11
    scannedByUserId := some "gk1"
    purchasedAt := some 1 }

/-- The store used by the C5 witness. -/
def c5Store : Store :=
  { tiers := [c5Tier], tickets := [c5Ticket], payments := [], entryScans := [],
    nextTicketId := 1, nextPaymentId := 0 }

/-- Witness for C5: a ticket already scanned at its event "E1" is scanned at
"E2" and the outcome is `wrong_event`, not `already_scanned`. -/
theorem scan_wrong_event_precedes_already_scanned_witness :
    verifyScan c5Store "gk2" "SCANCODE" "E2" 99
      = (c5Store, { success := false, scanResult := "wrong_event", ticket := none }) :=
  scan_wrong_event_precedes_already_scanned c5Store "gk2" "SCANCODE" "E1" "E2" 99
    c5Ticket c5Tier rfl rfl rfl (by decide)

/-- `getTicketByCode` is unaffected by appending an EntryScan audit row. -/
theorem getTicketByCode_createEntryScan (s : Store) (x : EntryScan) (c : String) :
    getTicketByCode (createEntryScan s x) c = getTicketByCode s c := rfl

/-- A scan that resolves to a ticket already in status `scanned` at the
matching event returns `already_scanned` with that ticket attached (carrying
its original `scannedAt`) and mutates nothing. -/
theorem scan_already_scanned_branch (s : Store) (u c e : String) (now : Nat)
    (tk : Ticket) (tier : TicketTier)
    (hfind : getTicketByCode s c = some tk)
    (hst : tk.status = TicketStatus.scanned)
    (htier : getTicketTier s tk.ticketTierId = some tier)
    (hev : tier.eventId = e) :
    verifyScan s u c e now
      = (s, { success := false, scanResult := "already_scanned", ticket := some tk }) := by
  have c1 : ¬ (tier.eventId ≠ e) := by
    rw [hev]
    exact fun h => h rfl
  simp only [verifyScan, hfind, htier]
  rw [if_neg c1, if_pos hst]

/-- C7: scanning is at-most-once per ticket.  A confirmed ticket scanned at
its own event yields `success`, and the stored row becomes `scanned` with
`scannedAt` and `scannedByUserId` set; a second scan of the same code at the
same event returns `already_scanned` with the original `scannedAt` preserved
in the attached ticket and leaves the whole store unchanged. -/
theorem scan_at_most_once (s : Store) (u1 u2 c e : String) (n1 n2 : Nat)
    (tk : Ticket) (tier : TicketTier)
    (hfind : getTicketByCode s c = some tk)
    (hstatus : tk.status = TicketStatus.confirmed)
    (htier : getTicketTier s tk.ticketTierId = some tier)
    (hev : tier.eventId = e) :
    (verifyScan s u1 c e n1).2
        = { success := true, scanResult := "success", ticket := some tk } ∧
    getTicketByCode (verifyScan s u1 c e n1).1 c
        = some { tk with
                  status := TicketStatus.scanned
                  scannedAt := some n1
                  scannedByUserId := some u1 } ∧
    verifyScan (verifyScan s u1 c e n1).1 u2 c e n2
        = ((verifyScan s u1 c e n1).1,
           { success := false
             scanResult := "already_scanned"
             ticket := some { tk with
                               status := TicketStatus.scanned
                               scannedAt := some n1
                               scannedByUserId := some u1 } }) := by
  have c1 : ¬ (tier.eventId ≠ e) := by
    rw [hev]
    exact fun h => h rfl
  have c2 : ¬ (tk.status = TicketStatus.scanned) := by
    rw [hstatus]
    exact fun h => nomatch h
  have c3 : ¬ (tk.status = TicketStatus.cancelled ∨ tk.status = TicketStatus.refunded) := by
    rw [hstatus]
    rintro (h | h) <;> exact nomatch h
  have hfirst : verifyScan s u1 c e n1 =
      (createEntryScan (updateTicket s tk.id TicketStatus.scanned n1 u1)
         { ticketId := tk.id, scannedByUserId := u1, eventId := e,
           scanResult := "success", scannedAt := n1 },
       { success := true, scanResult := "success", ticket := some tk }) := by
    simp only [verifyScan, hfind, htier]
    rw [if_neg c1, if_neg c2, if_neg c3]
  have hbc : getTicketByCode (verifyScan s u1 c e n1).1 c
      = some { tk with
                status := TicketStatus.scanned
                scannedAt := some n1
                scannedByUserId := some u1 } := by
    rw [hfirst]
    rw [getTicketByCode_createEntryScan, getTicketByCode_updateTicket, hfind]
    simp
  have htier2 : getTicketTier (verifyScan s u1 c e n1).1 tk.ticketTierId = some tier := by
    rw [hfirst]
    exact htier
  refine ⟨by rw [hfirst], hbc, ?_⟩
  exact scan_already_scanned_branch (verifyScan s u1 c e n1).1 u2 c e n2 _ tier hbc rfl htier2 hev

/-- The tier used by the C7 witness. -/
def c7Tier : TicketTier :=
  { id := "T1", eventId := "E1", price := 0, quantity := 5, soldCount := 1, isActive := true }

/-- The confirmed ticket used by the C7 witness. -/
def c7Ticket : Ticket :=
  { id := 0
    ticketTierId := "T1"
    userId := "u1"
    paymentId := some "p1"
    ticketCode := "TTTCODE1"
    status := TicketStatus.confirmed
    scannedAt := none
    scannedByUserId := none
    purchasedAt := some 1 }

/-- The store used by the C7 witness. -/
def c7Store : Store :=
  { tiers := [c7Tier], tickets := [c7Ticket], payments := [], entryScans := [],
    nextTicketId := 1, nextPaymentId := 0 }

/-- Witness for C7: first scan of "TTTCODE1" at "E1" succeeds; the rescan
returns `already_scanned` carrying the original `scannedAt = 10`. -/
theorem scan_at_most_once_witness :
    (verifyScan c7Store "g1" "TTTCODE1" "E1" 10).2
        = { success := true, scanResult := "success", ticket := some c7Ticket } ∧
    getTicketByCode (verifyScan c7Store "g1" "TTTCODE1" "E1" 10).1 "TTTCODE1"
        = some { c7Ticket with
                  status := TicketStatus.scanned
                  scannedAt := some 10
                  scannedByUserId := some "g1" } ∧
    verifyScan (verifyScan c7Store "g1" "TTTCODE1" "E1" 10).1 "g2" "TTTCODE1" "E1" 20
        = ((verifyScan c7Store "g1" "TTTCODE1" "E1" 10).1,
           { success := false
             scanResult := "already_scanned"
             ticket := some { c7Ticket with
                               status := TicketStatus.scanned
                               scannedAt := some 10
                               scannedByUserId := some "g1" } }) :=
  scan_at_most_once c7Store "g1" "g2" "TTTCODE1" "E1" 10 20 c7Ticket c7Tier rfl rfl rfl rfl

/-- C4 amended: when the scanned code resolves to a ticket, an EntryScan row
is appended only on the `success` outcome; every rejection outcome
(`wrong_event`, `already_scanned`, `expired`) leaves the audit table
unchanged. -/
theorem entryScan_only_on_success (s : Store) (u c e : String) (now : Nat)
    (tk : Ticket)
    (hfind : getTicketByCode s c = some tk) :
    ((verifyScan s u c e now).2.scanResult = "success" →
       ((verifyScan s u c e now).1).entryScans
         = s.entryScans ++
             [{ ticketId := tk.id, scannedByUserId := u, eventId := e,
                scanResult := "success", scannedAt := now }]) ∧
    ((verifyScan s u c e now).2.scanResult ≠ "success" →
       ((verifyScan s u c e now).1).entryScans = s.entryScans) := by
  cases htier : getTicketTier s tk.ticketTierId with
  | none =>
    have heq : verifyScan s u c e now
        = (s, { success := false, scanResult := "wrong_event", ticket := none }) := by
      simp only [verifyScan, hfind, htier]
    have heqr : (verifyScan s u c e now).2
        = ({ success := false, scanResult := "wrong_event", ticket := none } : ScanResponse) := by
      rw [heq]
    have heqs : (verifyScan s u c e now).1 = s := by
      rw [heq]
    rw [heqr, heqs]
    exact ⟨fun h => absurd h (by decide), fun _ => rfl⟩
  | some tier =>
    by_cases h1 : tier.eventId ≠ e
    · have heq : verifyScan s u c e now
          = (s, { success := false, scanResult := "wrong_event", ticket := none }) := by
        simp only [verifyScan, hfind, htier]
        rw [if_pos h1]
      have heqr : (verifyScan s u c e now).2
          = ({ success := false, scanResult := "wrong_event", ticket := none } : ScanResponse) := by
        rw [heq]
      have heqs : (verifyScan s u c e now).1 = s := by
        rw [heq]
      rw [heqr, heqs]
      exact ⟨fun h => absurd h (by decide), fun _ => rfl⟩
    · by_cases h2 : tk.status = TicketStatus.scanned
      · have heq : verifyScan s u c e now
            = (s, { success := false, scanResult := "already_scanned", ticket := some tk }) := by
          simp only [verifyScan, hfind, htier]
          rw [if_neg h1, if_pos h2]
        have heqr : (verifyScan s u c e now).2
            = ({ success := false, scanResult := "already_scanned", ticket := some tk } : ScanResponse) := by
          rw [heq]
        have heqs : (verifyScan s u c e now).1 = s := by
          rw [heq]
        rw [heqr, heqs]
        exact ⟨fun h => absurd (show ("already_scanned" : String) = "success" from h) (by decide),
          fun _ => rfl⟩
      · by_cases h3 : tk.status = TicketStatus.cancelled ∨ tk.status = TicketStatus.refunded
        · have heq : verifyScan s u c e now
              = (s, { success := false, scanResult := "expired", ticket := none }) := by
            simp only [verifyScan, hfind, htier]
            rw [if_neg h1, if_neg h2, if_pos h3]
          have heqr : (verifyScan s u c e now).2
              = ({ success := false, scanResult := "expired", ticket := none } : ScanResponse) := by
            rw [heq]
          have heqs : (verifyScan s u c e now).1 = s := by
            rw [heq]
          rw [heqr, heqs]
          exact ⟨fun h => absurd h (by decide), fun _ => rfl⟩
        · have heq : verifyScan s u c e now
              = (createEntryScan (updateTicket s tk.id TicketStatus.scanned now u)
                   { ticketId := tk.id, scannedByUserId := u, eventId := e,
                     scanResult := "success", scannedAt := now },
                 { success := true, scanResult := "success", ticket := some tk }) := by
            simp only [verifyScan, hfind, htier]
            rw [if_neg h1, if_neg h2, if_neg h3]
          have heqr : (verifyScan s u c e now).2
              = ({ success := true, scanResult := "success", ticket := some tk } : ScanResponse) := by
            rw [heq]
          have heqs : (verifyScan s u c e now).1
              = createEntryScan (updateTicket s tk.id TicketStatus.scanned now u)
                  { ticketId := tk.id, scannedByUserId := u, eventId := e,
                    scanResult := "success", scannedAt := now } := by
            rw [heq]
          rw [heqr, heqs]
          exact ⟨fun _ => rfl, fun h => absurd rfl h⟩

/-- The ticket used by the C4 theorems: a confirmed ticket of tier "T4" for
event "E1". -/
def c4Ticket : Ticket :=
  { id := 0
    ticketTierId := "T4"
    userId := "u1"
    paymentId := some "p1"
    ticketCode := "C4CODE00"
    status := TicketStatus.confirmed
    scannedAt := none
    scannedByUserId := none
    purchasedAt := some 1 }

/-- The store used by the C4 theorems. -/
def c4Store : Store :=
  { tiers := [{ id := "T4", eventId := "E1", price := 0, quantity := 5, soldCount := 1, isActive := true }]
    tickets := [c4Ticket]
    payments := []
    entryScans := []
    nextTicketId := 1
    nextPaymentId := 0 }

/-- Counterexample for C4: the code "C4CODE00" resolves to a ticket (the
resolution reaches step 2), the scan against the wrong event "E2" is
rejected with `wrong_event`, and NO EntryScan row is appended — the audit
table stays empty, contradicting the claim that every resolved invocation
writes one row. -/
theorem rejection_scan_no_audit_cex :
    getTicketByCode c4Store "C4CODE00" = some c4Ticket ∧
    (verifyScan c4Store "gk" "C4CODE00" "E2" 7).2.scanResult = "wrong_event" ∧
    ((verifyScan c4Store "gk" "C4CODE00" "E2" 7).1).entryScans = [] :=
  ⟨rfl, rfl, rfl⟩

/-- Witness for C4 amended: instantiated at the concrete store, a successful
scan at "E1" appends exactly one success row, and any non-success outcome
leaves the audit table unchanged. -/
theorem entryScan_only_on_success_witness :
    ((verifyScan c4Store "gk" "C4CODE00" "E1" 7).2.scanResult = "success" →
       ((verifyScan c4Store "gk" "C4CODE00" "E1" 7).1).entryScans
         = c4Store.entryScans ++
             [{ ticketId := c4Ticket.id, scannedByUserId := "gk", eventId := "E1",
                scanResult := "success", scannedAt := 7 }]) ∧
    ((verifyScan c4Store "gk" "C4CODE00" "E1" 7).2.scanResult ≠ "success" →
       ((verifyScan c4Store "gk" "C4CODE00" "E1" 7).1).entryScans = c4Store.entryScans) :=
  entryScan_only_on_success c4Store "gk" "C4CODE00" "E1" 7 c4Ticket rfl

/-- C1 amended: the Capacity Ledger update is unconditional.  For every
store, tier and requested quantity — with no hypothesis relating
`soldCount + increment` to `quantity` — `updateTicketTierSoldCount` sets
`soldCount := soldCount + increment` and reports the updated row; no
`CapacityExceeded`-style rejection exists, so `soldCount` can be driven past
`quantity`. -/
theorem soldCount_increment_unconditional (s : Store) (id : String) (inc : Nat)
    (tier : TicketTier)
    (ht : getTicketTier s id = some tier) :
    (updateTicketTierSoldCount s id inc).2
        = some { tier with soldCount := tier.soldCount + inc } ∧
    getTicketTier (updateTicketTierSoldCount s id inc).1 id
        = some { tier with soldCount := tier.soldCount + inc } := by
  have hid : tier.id = id := getTicketTier_id s id tier ht
  have h2 : getTicketTier (updateTicketTierSoldCount s id inc).1 id
      = some { tier with soldCount := tier.soldCount + inc } := by
    rw [getTicketTier_updateSoldCount, ht]
    simp [hid]
  exact ⟨h2, h2⟩

/-- The tier used by the C1 theorems: quantity 1, already sold out. -/
def c1Tier : TicketTier :=
  { id := "A", eventId := "E1", price := 0, quantity := 1, soldCount := 1, isActive := true }

/-- The pending payment used by the C1 counterexample: its cart requests one
more unit of the sold-out tier "A". -/
def c1Payment : Payment :=
  { id := "0"
    userId := "u1"
    eventId := "E1"
    razorpayOrderId := some "order_0"
    razorpayPaymentId := none
    razorpaySignature := none
    amount := 0
    ticketQuantity := 1
    status := PaymentStatus.pending
    items := [{ tierId := "A", quantity := 1, price := 0 }]
    completedAt := none }

/-- The store used by the C1 counterexample. -/
def c1Store : Store :=
  { tiers := [c1Tier], tickets := [], payments := [c1Payment], entryScans := [],
    nextTicketId := 0, nextPaymentId := 1 }

/-- Counterexample for C1: tier "A" has quantity 1 and soldCount 1, so the
cart's request of 1 more unit has soldCount + q = 2 > quantity = 1; the
claim says this issuance is rejected and soldCount not incremented, but the
code issues the ticket (result `ok`, not an error) and drives soldCount to 2,
violating `soldCount ≤ quantity`. -/
theorem oversell_not_rejected_cex :
    (verifyPayment c1Store "u1" "order_0" "pay_9" "sig" (fun _ => "FRESHAA1") 50).2
        = VerifyPaymentResult.ok
            [{ id := 0
               ticketTierId := "A"
               userId := "u1"
               paymentId := some "0"
               ticketCode := "FRESHAA1"
               status := TicketStatus.confirmed
               scannedAt := none
               scannedByUserId := none
               purchasedAt := some 50 }] ∧
    getTicketTier (verifyPayment c1Store "u1" "order_0" "pay_9" "sig"
        (fun _ => "FRESHAA1") 50).1 "A"
      = some { id := "A", eventId := "E1", price := 0, quantity := 1, soldCount := 2,
               isActive := true } := by
  constructor <;> rfl

/-- Witness for C1 amended: on the sold-out tier "A" (quantity 1, soldCount
1) an increment of 1 is applied anyway, leaving soldCount = 2 > quantity. -/
theorem soldCount_increment_unconditional_witness :
    (updateTicketTierSoldCount c1Store "A" 1).2
        = some { c1Tier with soldCount := 2 } ∧
    getTicketTier (updateTicketTierSoldCount c1Store "A" 1).1 "A"
        = some { c1Tier with soldCount := 2 } :=
  soldCount_increment_unconditional c1Store "A" 1 c1Tier rfl

/-- Marking a payment completed rewrites `getPayment` pointwise: the lookup
finds the image of the row it found before, because the update preserves
every payment `id`. -/
theorem getPayment_updatePaymentVerify (s : Store) (id pid sig : String) (now : Nat)
    (x : String) :
    getPayment (updatePaymentVerify s id pid sig now) x
      = (getPayment s x).map (fun p =>
          if p.id == id then
            { p with razorpayPaymentId := some pid, razorpaySignature := some sig,
                     status := PaymentStatus.completed, completedAt := some now }
          else p) := by
  simp only [getPayment, updatePaymentVerify]
  rw [List.find?_map]
  have hp : ((fun p : Payment => p.id == x) ∘ (fun p =>
      if p.id == id then
        { p with razorpayPaymentId := some pid, razorpaySignature := some sig,
                 status := PaymentStatus.completed, completedAt := some now }
      else p)) = (fun p : Payment => p.id == x) := by
    funext p
    by_cases h : p.id == id <;> simp [Function.comp, h]
  rw [hp]

/-- `getPayment` only depends on the payments table. -/
theorem getPayment_ext (s1 s2 : Store) (h : s1.payments = s2.payments) (x : String) :
    getPayment s1 x = getPayment s2 x := by
  unfold getPayment
  rw [h]

/-- The store `POST /api/payments/verify` leaves behind, when the order id
resolves: the store the issuance loops produced (complete or partial) on top
of the completed-marked payment. -/
theorem verifyPayment_store (s : Store) (u oid pid sig : String) (codes : Nat → String)
    (now : Nat) (p : Payment) (hp : getPaymentByRazorpayOrderId s oid = some p) :
    (verifyPayment s u oid pid sig codes now).1
      = storeOf (issueItems (updatePaymentVerify s p.id pid sig now) u p.id p.items codes 0 now) := by
  simp only [verifyPayment, hp]
  cases issueItems (updatePaymentVerify s p.id pid sig now) u p.id p.items codes 0 now with
  | inl q =>
    obtain ⟨a, b, ts⟩ := q
    rfl
  | inr s2 => rfl

/-- C3 amended: `POST /api/payments/verify` performs no verification.  For
every signature value — verified or garbage — once the order id resolves to
a payment it marks that payment `completed` (storing the supplied gateway id
and signature) and proceeds to issuance; there is no branch that marks the
payment `failed`. -/
theorem verifyPayment_ignores_signature (s : Store) (u oid pid sig : String)
    (codes : Nat → String) (now : Nat) (p : Payment)
    (hp : getPaymentByRazorpayOrderId s oid = some p)
    (hpid : getPayment s p.id = some p) :
    getPayment ((verifyPayment s u oid pid sig codes now).1) p.id
      = some { p with
                razorpayPaymentId := some pid
                razorpaySignature := some sig
                status := PaymentStatus.completed
                completedAt := some now } := by
  rw [verifyPayment_store s u oid pid sig codes now p hp]
  have hframe := issueItems_payments u p.id codes now p.items
    (updatePaymentVerify s p.id pid sig now) 0
  rw [getPayment_ext _ _ hframe p.id]
  rw [getPayment_updatePaymentVerify, hpid]
  have hbeq : (p.id == p.id) = true := beq_self_eq_true p.id
  simp [hbeq]

/-- The pending payment used by the C3 theorems. -/
def c3Payment : Payment :=
  { id := "0"
    userId := "u1"
    eventId := "E1"
    razorpayOrderId := some "order_0"
    razorpayPaymentId := none
    razorpaySignature := none
    amount := 5
    ticketQuantity := 1
    status := PaymentStatus.pending
    items := [{ tierId := "B", quantity := 1, price := 5 }]
    completedAt := none }

/-- The store used by the C3 theorems. -/
def c3Store : Store :=
  { tiers := [{ id := "B", eventId := "E1", price := 5, quantity := 10, soldCount := 0, isActive := true }]
    tickets := []
    payments := [c3Payment]
    entryScans := []
    nextTicketId := 0
    nextPaymentId := 1 }

/-- Counterexample for C3: the confirmation request carries the signature
"garbage-signature"; no gateway verification happens, yet the payment is
marked `completed` and a ticket is issued — an unverified confirmation
produced a completed payment and issued tickets, which the claim says can
happen for no input. -/
theorem unverified_confirmation_completes_cex :
    ((verifyPayment c3Store "u1" "order_0" "pay_1" "garbage-signature"
        (fun _ => "C3CODE00") 9).1).payments
        = [{ c3Payment with
              razorpayPaymentId := some "pay_1"
              razorpaySignature := some "garbage-signature"
              status := PaymentStatus.completed
              completedAt := some 9 }] ∧
    (verifyPayment c3Store "u1" "order_0" "pay_1" "garbage-signature"
        (fun _ => "C3CODE00") 9).2
        = VerifyPaymentResult.ok
            [{ id := 0
               ticketTierId := "B"
               userId := "u1"
               paymentId := some "0"
               ticketCode := "C3CODE00"
               status := TicketStatus.confirmed
               scannedAt := none
               scannedByUserId := none
               purchasedAt := some 9 }] := by
  constructor <;> rfl

/-- Witness for C3 amended: with the garbage signature "bad-sig" the
payment "0" still ends up `completed`. -/
theorem verifyPayment_ignores_signature_witness :
    getPayment ((verifyPayment c3Store "u1" "order_0" "pay_1" "bad-sig"
        (fun _ => "C3CODE11") 9).1) "0"
      = some { c3Payment with
                razorpayPaymentId := some "pay_1"
                razorpaySignature := some "bad-sig"
                status := PaymentStatus.completed
                completedAt := some 9 } :=
  verifyPayment_ignores_signature c3Store "u1" "order_0" "pay_1" "bad-sig"
    (fun _ => "C3CODE11") 9 c3Payment rfl rfl

/-- C2 amended: payment confirmation is NOT idempotent.  A second invocation
of `POST /api/payments/verify` on a payment that has already been issued (its
status is `completed`) runs the whole issuance again: provided the freshly
drawn codes do not collide, it returns a brand-new ticket list, appends that
many new Ticket rows to the table, and increments the tier's soldCount once
more.  (Stated for a single-line cart of quantity `q`.) -/
theorem confirmPayment_reissues_on_second_call (s : Store) (u oid pid sig : String)
    (codes : Nat → String) (now : Nat) (p : Payment) (tid : String) (q : Nat) (pr : ℚ)
    (tier : TicketTier)
    (hp : getPaymentByRazorpayOrderId s oid = some p)
    (hstatus : p.status = PaymentStatus.completed)
    (hitems : p.items = [{ tierId := tid, quantity := q, price := pr }])
    (htier : getTicketTier s tid = some tier)
    (hfresh : FreshCodes s.tickets codes 0 q) :
    (verifyPayment s u oid pid sig codes now).2
        = VerifyPaymentResult.ok (mkIssuedTickets s.nextTicketId tid u p.id codes 0 q now) ∧
    ((verifyPayment s u oid pid sig codes now).1).tickets
        = s.tickets ++ mkIssuedTickets s.nextTicketId tid u p.id codes 0 q now ∧
    ((verifyPayment s u oid pid sig codes now).1).tickets.length
        = s.tickets.length + q ∧
    getTicketTier ((verifyPayment s u oid pid sig codes now).1) tid
        = some { tier with soldCount := tier.soldCount + q } := by
  have hid : tier.id = tid := getTicketTier_id s tid tier htier
  have hloop := createTicketsLoop_spec u p.id tid codes now q
    (updatePaymentVerify s p.id pid sig now) 0 hfresh
  have hver : verifyPayment s u oid pid sig codes now
      = ((updateTicketTierSoldCount
            { updatePaymentVerify s p.id pid sig now with
                tickets := s.tickets ++ mkIssuedTickets s.nextTicketId tid u p.id codes 0 q now
                nextTicketId := s.nextTicketId + q }
            tid q).1,
         VerifyPaymentResult.ok (mkIssuedTickets s.nextTicketId tid u p.id codes 0 q now)) := by
    simp only [verifyPayment, hp]
    rw [hitems]
    simp only [issueItems]
    rw [hloop]
    simp [updatePaymentVerify]
  refine ⟨by rw [hver], by rw [hver]; rfl, ?_, ?_⟩
  · rw [hver]
    show (s.tickets ++ mkIssuedTickets s.nextTicketId tid u p.id codes 0 q now).length
        = s.tickets.length + q
    rw [List.length_append, mkIssuedTickets_length]
  · rw [hver]
    show getTicketTier (updateTicketTierSoldCount
        { updatePaymentVerify s p.id pid sig now with
            tickets := s.tickets ++ mkIssuedTickets s.nextTicketId tid u p.id codes 0 q now
            nextTicketId := s.nextTicketId + q }
        tid q).1 tid = some { tier with soldCount := tier.soldCount + q }
    rw [getTicketTier_updateSoldCount]
    rw [show getTicketTier
        { updatePaymentVerify s p.id pid sig now with
            tickets := s.tickets ++ mkIssuedTickets s.nextTicketId tid u p.id codes 0 q now
            nextTicketId := s.nextTicketId + q }
        tid = some tier from htier]
    simp [hid]

/-- The already-completed payment used by the C2 counterexample and witness:
its single-line cart requests 1 unit of tier "D" and it has already been
issued once (the ticket "CODEAAA1" below). -/
def c2Payment : Payment :=
  { id := "0"
    userId := "u1"
    eventId := "E1"
    razorpayOrderId := some "order_0"
    razorpayPaymentId := some "pay1"
    razorpaySignature := some "sig"
    amount := 2
    ticketQuantity := 1
    status := PaymentStatus.completed
    items := [{ tierId := "D", quantity := 1, price := 2 }]
    completedAt := some 10 }

/-- The ticket created by the first issuance of `c2Payment`. -/
def c2Ticket : Ticket :=
  { id := 0
    ticketTierId := "D"
    userId := "u1"
    paymentId := some "0"
    ticketCode := "CODEAAA1"
    status := TicketStatus.confirmed
    scannedAt := none
    scannedByUserId := none
    purchasedAt := some 10 }

/-- The store used by the C2 theorems: the state right after the first
(successful) confirmation of `c2Payment`. -/
def c2Store : Store :=
  { tiers := [{ id := "D", eventId := "E1", price := 2, quantity := 10, soldCount := 1, isActive := true }]
    tickets := [c2Ticket]
    payments := [c2Payment]
    entryScans := []
    nextTicketId := 1
    nextPaymentId := 1 }

/-- Counterexample for C2: re-confirming the already-issued payment "0"
returns a different ticket set (a fresh row with the new code "CODEBBB2"),
grows the tickets table from 1 to 2 rows, and drives tier "D"'s soldCount
from 1 to 2 — the second invocation duplicates tickets and double-counts
capacity instead of returning the original ticket set. -/
theorem confirmPayment_not_idempotent_cex :
    (verifyPayment c2Store "u1" "order_0" "pay1" "sig" (fun _ => "CODEBBB2") 20).2
        = VerifyPaymentResult.ok
            [{ id := 1
               ticketTierId := "D"
               userId := "u1"
               paymentId := some "0"
               ticketCode := "CODEBBB2"
               status := TicketStatus.confirmed
               scannedAt := none
               scannedByUserId := none
               purchasedAt := some 20 }] ∧
    ((verifyPayment c2Store "u1" "order_0" "pay1" "sig" (fun _ => "CODEBBB2") 20).1).tickets
        = [c2Ticket,
           { id := 1
             ticketTierId := "D"
             userId := "u1"
             paymentId := some "0"
             ticketCode := "CODEBBB2"
             status := TicketStatus.confirmed
             scannedAt := none
             scannedByUserId := none
             purchasedAt := some 20 }] ∧
    (getTicketTier ((verifyPayment c2Store "u1" "order_0" "pay1" "sig"
        (fun _ => "CODEBBB2") 20).1) "D").map (fun t => t.soldCount) = some 2 := by
  refine ⟨rfl, rfl, rfl⟩

/-- Witness for C2 amended: applied to the concrete post-first-issuance
store, the second confirmation re-issues one ticket and bumps soldCount. -/
theorem confirmPayment_reissues_on_second_call_witness :
    (verifyPayment c2Store "u1" "order_0" "pay1" "sig" (fun _ => "CODECCC3") 30).2
        = VerifyPaymentResult.ok
            (mkIssuedTickets c2Store.nextTicketId "D" "u1" c2Payment.id
              (fun _ => "CODECCC3") 0 1 30) ∧
    ((verifyPayment c2Store "u1" "order_0" "pay1" "sig" (fun _ => "CODECCC3") 30).1).tickets
        = c2Store.tickets ++ mkIssuedTickets c2Store.nextTicketId "D" "u1" c2Payment.id
            (fun _ => "CODECCC3") 0 1 30 ∧
    ((verifyPayment c2Store "u1" "order_0" "pay1" "sig" (fun _ => "CODECCC3") 30).1).tickets.length
        = c2Store.tickets.length + 1 ∧
    getTicketTier ((verifyPayment c2Store "u1" "order_0" "pay1" "sig"
        (fun _ => "CODECCC3") 30).1) "D"
      = some { id := "D", eventId := "E1", price := 2, quantity := 10, soldCount := 2,
               isActive := true } :=
  confirmPayment_reissues_on_second_call c2Store "u1" "order_0" "pay1" "sig"
    (fun _ => "CODECCC3") 30 c2Payment "D" 1 2
    { id := "D", eventId := "E1", price := 2, quantity := 10, soldCount := 1, isActive := true }
    rfl rfl rfl rfl (by unfold FreshCodes; decide)


/-- `getTicketTier` only depends on the tiers table. -/
theorem getTicketTier_ext (s1 s2 : Store) (h : s1.tiers = s2.tiers) (x : String) :
    getTicketTier s1 x = getTicketTier s2 x := by
  unfold getTicketTier
  rw [h]

/-- C6: issuance creates one Ticket row per purchased unit.  For a payment
whose cart snapshot requests 2 units of tier `a` and 1 unit of tier `b`,
with both tiers having sufficient capacity and fresh codes, exactly 3 Ticket
rows are created — each with status `confirmed`, its own ticket code drawn
from the generator stream, and linked to the payment and purchasing user —
and tier `a`'s soldCount increases by 2 while tier `b`'s increases by 1. -/
theorem issuance_one_ticket_per_unit (s : Store) (u oid pid sig : String)
    (codes : Nat → String) (now : Nat) (p : Payment) (a b : String) (pa pb : ℚ)
    (tierA tierB : TicketTier)
    (hp : getPaymentByRazorpayOrderId s oid = some p)
    (hitems : p.items = [{ tierId := a, quantity := 2, price := pa },
                         { tierId := b, quantity := 1, price := pb }])
    (hab : a ≠ b)
    (htA : getTicketTier s a = some tierA)
    (htB : getTicketTier s b = some tierB)
    (hcapA : tierA.soldCount + 2 ≤ tierA.quantity)
    (hcapB : tierB.soldCount + 1 ≤ tierB.quantity)
    (hfresh : FreshCodes s.tickets codes 0 3) :
    (verifyPayment s u oid pid sig codes now).2
        = VerifyPaymentResult.ok
            [{ id := s.nextTicketId
               ticketTierId := a
               userId := u
               paymentId := some p.id
               ticketCode := codes 0
               status := TicketStatus.confirmed
               scannedAt := none
               scannedByUserId := none
               purchasedAt := some now },
             { id := s.nextTicketId + 1
               ticketTierId := a
               userId := u
               paymentId := some p.id
               ticketCode := codes 1
               status := TicketStatus.confirmed
               scannedAt := none
               scannedByUserId := none
               purchasedAt := some now },
             { id := s.nextTicketId + 2
               ticketTierId := b
               userId := u
               paymentId := some p.id
               ticketCode := codes 2
               status := TicketStatus.confirmed
               scannedAt := none
               scannedByUserId := none
               purchasedAt := some now }] ∧
    ((verifyPayment s u oid pid sig codes now).1).tickets
        = s.tickets ++
            [{ id := s.nextTicketId
               ticketTierId := a
               userId := u
               paymentId := some p.id
               ticketCode := codes 0
               status := TicketStatus.confirmed
               scannedAt := none
               scannedByUserId := none
               purchasedAt := some now },
             { id := s.nextTicketId + 1
               ticketTierId := a
               userId := u
               paymentId := some p.id
               ticketCode := codes 1
               status := TicketStatus.confirmed
               scannedAt := none
               scannedByUserId := none
               purchasedAt := some now },
             { id := s.nextTicketId + 2
               ticketTierId := b
               userId := u
               paymentId := some p.id
               ticketCode := codes 2
               status := TicketStatus.confirmed
               scannedAt := none
               scannedByUserId := none
               purchasedAt := some now }] ∧
    getTicketTier ((verifyPayment s u oid pid sig codes now).1) a
        = some { tierA with soldCount := tierA.soldCount + 2 } ∧
    getTicketTier ((verifyPayment s u oid pid sig codes now).1) b
        = some { tierB with soldCount := tierB.soldCount + 1 } := by
  have hidA : tierA.id = a := getTicketTier_id s a tierA htA
  have hidB : tierB.id = b := getTicketTier_id s b tierB htB
  have hfreshA : FreshCodes (updatePaymentVerify s p.id pid sig now).tickets codes 0 2 :=
    ⟨fun i hi => hfresh.1 i (by omega),
     fun i hi j hj => hfresh.2 i (by omega) j (by omega)⟩
  have hloopA := createTicketsLoop_spec u p.id a codes now 2 (updatePaymentVerify s p.id pid sig now) 0 hfreshA
  have hfreshB : FreshCodes (updateTicketTierSoldCount { tiers := (updatePaymentVerify s p.id pid sig now).tiers, tickets := (updatePaymentVerify s p.id pid sig now).tickets ++ mkIssuedTickets (updatePaymentVerify s p.id pid sig now).nextTicketId a u p.id codes 0 2 now, payments := (updatePaymentVerify s p.id pid sig now).payments, entryScans := (updatePaymentVerify s p.id pid sig now).entryScans, nextTicketId := (updatePaymentVerify s p.id pid sig now).nextTicketId + 2, nextPaymentId := (updatePaymentVerify s p.id pid sig now).nextPaymentId } a 2).1.tickets codes (0 + 2) 1 := by
    show FreshCodes (s.tickets ++ mkIssuedTickets s.nextTicketId a u p.id codes 0 2 now)
        codes (0 + 2) 1
    constructor
    · intro i hi t ht
      have hi0 : i = 0 := by omega
      subst hi0
      rcases List.mem_append.mp ht with hmem | hmem
      · exact hfresh.1 2 (by omega) t hmem
      · simp only [mkIssuedTickets] at hmem
        rcases List.mem_cons.mp hmem with h | h
        · subst h
          exact hfresh.2 0 (by omega) 2 (by omega) (by omega)
        · rcases List.mem_cons.mp h with h2 | h2
          · subst h2
            exact hfresh.2 1 (by omega) 2 (by omega) (by omega)
          · exact absurd h2 (by simp)
    · intro i hi j hj hij
      exact absurd (by omega) hij
  have hB := createTicketsLoop_spec u p.id b codes now 1 (updateTicketTierSoldCount { tiers := (updatePaymentVerify s p.id pid sig now).tiers, tickets := (updatePaymentVerify s p.id pid sig now).tickets ++ mkIssuedTickets (updatePaymentVerify s p.id pid sig now).nextTicketId a u p.id codes 0 2 now, payments := (updatePaymentVerify s p.id pid sig now).payments, entryScans := (updatePaymentVerify s p.id pid sig now).entryScans, nextTicketId := (updatePaymentVerify s p.id pid sig now).nextTicketId + 2, nextPaymentId := (updatePaymentVerify s p.id pid sig now).nextPaymentId } a 2).1 (0 + 2) hfreshB
  have hIA : issueItems (updatePaymentVerify s p.id pid sig now) u p.id p.items codes 0 now
      = Sum.inl ((updateTicketTierSoldCount { tiers := (updateTicketTierSoldCount { tiers := (updatePaymentVerify s p.id pid sig now).tiers, tickets := (updatePaymentVerify s p.id pid sig now).tickets ++ mkIssuedTickets (updatePaymentVerify s p.id pid sig now).nextTicketId a u p.id codes 0 2 now, payments := (updatePaymentVerify s p.id pid sig now).payments, entryScans := (updatePaymentVerify s p.id pid sig now).entryScans, nextTicketId := (updatePaymentVerify s p.id pid sig now).nextTicketId + 2, nextPaymentId := (updatePaymentVerify s p.id pid sig now).nextPaymentId } a 2).1.tiers, tickets := (updateTicketTierSoldCount { tiers := (updatePaymentVerify s p.id pid sig now).tiers, tickets := (updatePaymentVerify s p.id pid sig now).tickets ++ mkIssuedTickets (updatePaymentVerify s p.id pid sig now).nextTicketId a u p.id codes 0 2 now, payments := (updatePaymentVerify s p.id pid sig now).payments, entryScans := (updatePaymentVerify s p.id pid sig now).entryScans, nextTicketId := (updatePaymentVerify s p.id pid sig now).nextTicketId + 2, nextPaymentId := (updatePaymentVerify s p.id pid sig now).nextPaymentId } a 2).1.tickets ++ mkIssuedTickets (updateTicketTierSoldCount { tiers := (updatePaymentVerify s p.id pid sig now).tiers, tickets := (updatePaymentVerify s p.id pid sig now).tickets ++ mkIssuedTickets (updatePaymentVerify s p.id pid sig now).nextTicketId a u p.id codes 0 2 now, payments := (updatePaymentVerify s p.id pid sig now).payments, entryScans := (updatePaymentVerify s p.id pid sig now).entryScans, nextTicketId := (updatePaymentVerify s p.id pid sig now).nextTicketId + 2, nextPaymentId := (updatePaymentVerify s p.id pid sig now).nextPaymentId } a 2).1.nextTicketId b u p.id codes (0 + 2) 1 now, payments := (updateTicketTierSoldCount { tiers := (updatePaymentVerify s p.id pid sig now).tiers, tickets := (updatePaymentVerify s p.id pid sig now).tickets ++ mkIssuedTickets (updatePaymentVerify s p.id pid sig now).nextTicketId a u p.id codes 0 2 now, payments := (updatePaymentVerify s p.id pid sig now).payments, entryScans := (updatePaymentVerify s p.id pid sig now).entryScans, nextTicketId := (updatePaymentVerify s p.id pid sig now).nextTicketId + 2, nextPaymentId := (updatePaymentVerify s p.id pid sig now).nextPaymentId } a 2).1.payments, entryScans := (updateTicketTierSoldCount { tiers := (updatePaymentVerify s p.id pid sig now).tiers, tickets := (updatePaymentVerify s p.id pid sig now).tickets ++ mkIssuedTickets (updatePaymentVerify s p.id pid sig now).nextTicketId a u p.id codes 0 2 now, payments := (updatePaymentVerify s p.id pid sig now).payments, entryScans := (updatePaymentVerify s p.id pid sig now).entryScans, nextTicketId := (updatePaymentVerify s p.id pid sig now).nextTicketId + 2, nextPaymentId := (updatePaymentVerify s p.id pid sig now).nextPaymentId } a 2).1.entryScans, nextTicketId := (updateTicketTierSoldCount { tiers := (updatePaymentVerify s p.id pid sig now).tiers, tickets := (updatePaymentVerify s p.id pid sig now).tickets ++ mkIssuedTickets (updatePaymentVerify s p.id pid sig now).nextTicketId a u p.id codes 0 2 now, payments := (updatePaymentVerify s p.id pid sig now).payments, entryScans := (updatePaymentVerify s p.id pid sig now).entryScans, nextTicketId := (updatePaymentVerify s p.id pid sig now).nextTicketId + 2, nextPaymentId := (updatePaymentVerify s p.id pid sig now).nextPaymentId } a 2).1.nextTicketId + 1, nextPaymentId := (updateTicketTierSoldCount { tiers := (updatePaymentVerify s p.id pid sig now).tiers, tickets := (updatePaymentVerify s p.id pid sig now).tickets ++ mkIssuedTickets (updatePaymentVerify s p.id pid sig now).nextTicketId a u p.id codes 0 2 now, payments := (updatePaymentVerify s p.id pid sig now).payments, entryScans := (updatePaymentVerify s p.id pid sig now).entryScans, nextTicketId := (updatePaymentVerify s p.id pid sig now).nextTicketId + 2, nextPaymentId := (updatePaymentVerify s p.id pid sig now).nextPaymentId } a 2).1.nextPaymentId } b 1).1, (0 + 2) + 1, mkIssuedTickets (updatePaymentVerify s p.id pid sig now).nextTicketId a u p.id codes 0 2 now ++ (mkIssuedTickets (updateTicketTierSoldCount { tiers := (updatePaymentVerify s p.id pid sig now).tiers, tickets := (updatePaymentVerify s p.id pid sig now).tickets ++ mkIssuedTickets (updatePaymentVerify s p.id pid sig now).nextTicketId a u p.id codes 0 2 now, payments := (updatePaymentVerify s p.id pid sig now).payments, entryScans := (updatePaymentVerify s p.id pid sig now).entryScans, nextTicketId := (updatePaymentVerify s p.id pid sig now).nextTicketId + 2, nextPaymentId := (updatePaymentVerify s p.id pid sig now).nextPaymentId } a 2).1.nextTicketId b u p.id codes (0 + 2) 1 now ++ [])) := by
    rw [hitems]
    simp only [issueItems]
    rw [hloopA]
    simp only [hB]
  have hver : verifyPayment s u oid pid sig codes now
      = ((updateTicketTierSoldCount { tiers := (updateTicketTierSoldCount { tiers := (updatePaymentVerify s p.id pid sig now).tiers, tickets := (updatePaymentVerify s p.id pid sig now).tickets ++ mkIssuedTickets (updatePaymentVerify s p.id pid sig now).nextTicketId a u p.id codes 0 2 now, payments := (updatePaymentVerify s p.id pid sig now).payments, entryScans := (updatePaymentVerify s p.id pid sig now).entryScans, nextTicketId := (updatePaymentVerify s p.id pid sig now).nextTicketId + 2, nextPaymentId := (updatePaymentVerify s p.id pid sig now).nextPaymentId } a 2).1.tiers, tickets := (updateTicketTierSoldCount { tiers := (updatePaymentVerify s p.id pid sig now).tiers, tickets := (updatePaymentVerify s p.id pid sig now).tickets ++ mkIssuedTickets (updatePaymentVerify s p.id pid sig now).nextTicketId a u p.id codes 0 2 now, payments := (updatePaymentVerify s p.id pid sig now).payments, entryScans := (updatePaymentVerify s p.id pid sig now).entryScans, nextTicketId := (updatePaymentVerify s p.id pid sig now).nextTicketId + 2, nextPaymentId := (updatePaymentVerify s p.id pid sig now).nextPaymentId } a 2).1.tickets ++ mkIssuedTickets (updateTicketTierSoldCount { tiers := (updatePaymentVerify s p.id pid sig now).tiers, tickets := (updatePaymentVerify s p.id pid sig now).tickets ++ mkIssuedTickets (updatePaymentVerify s p.id pid sig now).nextTicketId a u p.id codes 0 2 now, payments := (updatePaymentVerify s p.id pid sig now).payments, entryScans := (updatePaymentVerify s p.id pid sig now).entryScans, nextTicketId := (updatePaymentVerify s p.id pid sig now).nextTicketId + 2, nextPaymentId := (updatePaymentVerify s p.id pid sig now).nextPaymentId } a 2).1.nextTicketId b u p.id codes (0 + 2) 1 now, payments := (updateTicketTierSoldCount { tiers := (updatePaymentVerify s p.id pid sig now).tiers, tickets := (updatePaymentVerify s p.id pid sig now).tickets ++ mkIssuedTickets (updatePaymentVerify s p.id pid sig now).nextTicketId a u p.id codes 0 2 now, payments := (updatePaymentVerify s p.id pid sig now).payments, entryScans := (updatePaymentVerify s p.id pid sig now).entryScans, nextTicketId := (updatePaymentVerify s p.id pid sig now).nextTicketId + 2, nextPaymentId := (updatePaymentVerify s p.id pid sig now).nextPaymentId } a 2).1.payments, entryScans := (updateTicketTierSoldCount { tiers := (updatePaymentVerify s p.id pid sig now).tiers, tickets := (updatePaymentVerify s p.id pid sig now).tickets ++ mkIssuedTickets (updatePaymentVerify s p.id pid sig now).nextTicketId a u p.id codes 0 2 now, payments := (updatePaymentVerify s p.id pid sig now).payments, entryScans := (updatePaymentVerify s p.id pid sig now).entryScans, nextTicketId := (updatePaymentVerify s p.id pid sig now).nextTicketId + 2, nextPaymentId := (updatePaymentVerify s p.id pid sig now).nextPaymentId } a 2).1.entryScans, nextTicketId := (updateTicketTierSoldCount { tiers := (updatePaymentVerify s p.id pid sig now).tiers, tickets := (updatePaymentVerify s p.id pid sig now).tickets ++ mkIssuedTickets (updatePaymentVerify s p.id pid sig now).nextTicketId a u p.id codes 0 2 now, payments := (updatePaymentVerify s p.id pid sig now).payments, entryScans := (updatePaymentVerify s p.id pid sig now).entryScans, nextTicketId := (updatePaymentVerify s p.id pid sig now).nextTicketId + 2, nextPaymentId := (updatePaymentVerify s p.id pid sig now).nextPaymentId } a 2).1.nextTicketId + 1, nextPaymentId := (updateTicketTierSoldCount { tiers := (updatePaymentVerify s p.id pid sig now).tiers, tickets := (updatePaymentVerify s p.id pid sig now).tickets ++ mkIssuedTickets (updatePaymentVerify s p.id pid sig now).nextTicketId a u p.id codes 0 2 now, payments := (updatePaymentVerify s p.id pid sig now).payments, entryScans := (updatePaymentVerify s p.id pid sig now).entryScans, nextTicketId := (updatePaymentVerify s p.id pid sig now).nextTicketId + 2, nextPaymentId := (updatePaymentVerify s p.id pid sig now).nextPaymentId } a 2).1.nextPaymentId } b 1).1, VerifyPaymentResult.ok (mkIssuedTickets (updatePaymentVerify s p.id pid sig now).nextTicketId a u p.id codes 0 2 now ++ (mkIssuedTickets (updateTicketTierSoldCount { tiers := (updatePaymentVerify s p.id pid sig now).tiers, tickets := (updatePaymentVerify s p.id pid sig now).tickets ++ mkIssuedTickets (updatePaymentVerify s p.id pid sig now).nextTicketId a u p.id codes 0 2 now, payments := (updatePaymentVerify s p.id pid sig now).payments, entryScans := (updatePaymentVerify s p.id pid sig now).entryScans, nextTicketId := (updatePaymentVerify s p.id pid sig now).nextTicketId + 2, nextPaymentId := (updatePaymentVerify s p.id pid sig now).nextPaymentId } a 2).1.nextTicketId b u p.id codes (0 + 2) 1 now ++ []))) := by
    simp only [verifyPayment, hp]
    rw [hIA]
  refine ⟨by rw [hver]; rfl, ?_, ?_, ?_⟩
  · rw [hver]
    show (s.tickets ++ mkIssuedTickets s.nextTicketId a u p.id codes 0 2 now) ++
        mkIssuedTickets (s.nextTicketId + 2) b u p.id codes (0 + 2) 1 now = _
    rw [List.append_assoc]
    rfl
  · rw [hver]
    rw [getTicketTier_updateSoldCount]
    rw [getTicketTier_ext { tiers := (updateTicketTierSoldCount { tiers := (updatePaymentVerify s p.id pid sig now).tiers, tickets := (updatePaymentVerify s p.id pid sig now).tickets ++ mkIssuedTickets (updatePaymentVerify s p.id pid sig now).nextTicketId a u p.id codes 0 2 now, payments := (updatePaymentVerify s p.id pid sig now).payments, entryScans := (updatePaymentVerify s p.id pid sig now).entryScans, nextTicketId := (updatePaymentVerify s p.id pid sig now).nextTicketId + 2, nextPaymentId := (updatePaymentVerify s p.id pid sig now).nextPaymentId } a 2).1.tiers, tickets := (updateTicketTierSoldCount { tiers := (updatePaymentVerify s p.id pid sig now).tiers, tickets := (updatePaymentVerify s p.id pid sig now).tickets ++ mkIssuedTickets (updatePaymentVerify s p.id pid sig now).nextTicketId a u p.id codes 0 2 now, payments := (updatePaymentVerify s p.id pid sig now).payments, entryScans := (updatePaymentVerify s p.id pid sig now).entryScans, nextTicketId := (updatePaymentVerify s p.id pid sig now).nextTicketId + 2, nextPaymentId := (updatePaymentVerify s p.id pid sig now).nextPaymentId } a 2).1.tickets ++ mkIssuedTickets (updateTicketTierSoldCount { tiers := (updatePaymentVerify s p.id pid sig now).tiers, tickets := (updatePaymentVerify s p.id pid sig now).tickets ++ mkIssuedTickets (updatePaymentVerify s p.id pid sig now).nextTicketId a u p.id codes 0 2 now, payments := (updatePaymentVerify s p.id pid sig now).payments, entryScans := (updatePaymentVerify s p.id pid sig now).entryScans, nextTicketId := (updatePaymentVerify s p.id pid sig now).nextTicketId + 2, nextPaymentId := (updatePaymentVerify s p.id pid sig now).nextPaymentId } a 2).1.nextTicketId b u p.id codes (0 + 2) 1 now, payments := (updateTicketTierSoldCount { tiers := (updatePaymentVerify s p.id pid sig now).tiers, tickets := (updatePaymentVerify s p.id pid sig now).tickets ++ mkIssuedTickets (updatePaymentVerify s p.id pid sig now).nextTicketId a u p.id codes 0 2 now, payments := (updatePaymentVerify s p.id pid sig now).payments, entryScans := (updatePaymentVerify s p.id pid sig now).entryScans, nextTicketId := (updatePaymentVerify s p.id pid sig now).nextTicketId + 2, nextPaymentId := (updatePaymentVerify s p.id pid sig now).nextPaymentId } a 2).1.payments, entryScans := (updateTicketTierSoldCount { tiers := (updatePaymentVerify s p.id pid sig now).tiers, tickets := (updatePaymentVerify s p.id pid sig now).tickets ++ mkIssuedTickets (updatePaymentVerify s p.id pid sig now).nextTicketId a u p.id codes 0 2 now, payments := (updatePaymentVerify s p.id pid sig now).payments, entryScans := (updatePaymentVerify s p.id pid sig now).entryScans, nextTicketId := (updatePaymentVerify s p.id pid sig now).nextTicketId + 2, nextPaymentId := (updatePaymentVerify s p.id pid sig now).nextPaymentId } a 2).1.entryScans, nextTicketId := (updateTicketTierSoldCount { tiers := (updatePaymentVerify s p.id pid sig now).tiers, tickets := (updatePaymentVerify s p.id pid sig now).tickets ++ mkIssuedTickets (updatePaymentVerify s p.id pid sig now).nextTicketId a u p.id codes 0 2 now, payments := (updatePaymentVerify s p.id pid sig now).payments, entryScans := (updatePaymentVerify s p.id pid sig now).entryScans, nextTicketId := (updatePaymentVerify s p.id pid sig now).nextTicketId + 2, nextPaymentId := (updatePaymentVerify s p.id pid sig now).nextPaymentId } a 2).1.nextTicketId + 1, nextPaymentId := (updateTicketTierSoldCount { tiers := (updatePaymentVerify s p.id pid sig now).tiers, tickets := (updatePaymentVerify s p.id pid sig now).tickets ++ mkIssuedTickets (updatePaymentVerify s p.id pid sig now).nextTicketId a u p.id codes 0 2 now, payments := (updatePaymentVerify s p.id pid sig now).payments, entryScans := (updatePaymentVerify s p.id pid sig now).entryScans, nextTicketId := (updatePaymentVerify s p.id pid sig now).nextTicketId + 2, nextPaymentId := (updatePaymentVerify s p.id pid sig now).nextPaymentId } a 2).1.nextPaymentId } (updateTicketTierSoldCount { tiers := (updatePaymentVerify s p.id pid sig now).tiers, tickets := (updatePaymentVerify s p.id pid sig now).tickets ++ mkIssuedTickets (updatePaymentVerify s p.id pid sig now).nextTicketId a u p.id codes 0 2 now, payments := (updatePaymentVerify s p.id pid sig now).payments, entryScans := (updatePaymentVerify s p.id pid sig now).entryScans, nextTicketId := (updatePaymentVerify s p.id pid sig now).nextTicketId + 2, nextPaymentId := (updatePaymentVerify s p.id pid sig now).nextPaymentId } a 2).1 rfl a]
    rw [getTicketTier_updateSoldCount]
    rw [getTicketTier_ext { tiers := (updatePaymentVerify s p.id pid sig now).tiers, tickets := (updatePaymentVerify s p.id pid sig now).tickets ++ mkIssuedTickets (updatePaymentVerify s p.id pid sig now).nextTicketId a u p.id codes 0 2 now, payments := (updatePaymentVerify s p.id pid sig now).payments, entryScans := (updatePaymentVerify s p.id pid sig now).entryScans, nextTicketId := (updatePaymentVerify s p.id pid sig now).nextTicketId + 2, nextPaymentId := (updatePaymentVerify s p.id pid sig now).nextPaymentId } s rfl a]
    rw [htA]
    simp [hidA, hab]
  · rw [hver]
    rw [getTicketTier_updateSoldCount]
    rw [getTicketTier_ext { tiers := (updateTicketTierSoldCount { tiers := (updatePaymentVerify s p.id pid sig now).tiers, tickets := (updatePaymentVerify s p.id pid sig now).tickets ++ mkIssuedTickets (updatePaymentVerify s p.id pid sig now).nextTicketId a u p.id codes 0 2 now, payments := (updatePaymentVerify s p.id pid sig now).payments, entryScans := (updatePaymentVerify s p.id pid sig now).entryScans, nextTicketId := (updatePaymentVerify s p.id pid sig now).nextTicketId + 2, nextPaymentId := (updatePaymentVerify s p.id pid sig now).nextPaymentId } a 2).1.tiers, tickets := (updateTicketTierSoldCount { tiers := (updatePaymentVerify s p.id pid sig now).tiers, tickets := (updatePaymentVerify s p.id pid sig now).tickets ++ mkIssuedTickets (updatePaymentVerify s p.id pid sig now).nextTicketId a u p.id codes 0 2 now, payments := (updatePaymentVerify s p.id pid sig now).payments, entryScans := (updatePaymentVerify s p.id pid sig now).entryScans, nextTicketId := (updatePaymentVerify s p.id pid sig now).nextTicketId + 2, nextPaymentId := (updatePaymentVerify s p.id pid sig now).nextPaymentId } a 2).1.tickets ++ mkIssuedTickets (updateTicketTierSoldCount { tiers := (updatePaymentVerify s p.id pid sig now).tiers, tickets := (updatePaymentVerify s p.id pid sig now).tickets ++ mkIssuedTickets (updatePaymentVerify s p.id pid sig now).nextTicketId a u p.id codes 0 2 now, payments := (updatePaymentVerify s p.id pid sig now).payments, entryScans := (updatePaymentVerify s p.id pid sig now).entryScans, nextTicketId := (updatePaymentVerify s p.id pid sig now).nextTicketId + 2, nextPaymentId := (updatePaymentVerify s p.id pid sig now).nextPaymentId } a 2).1.nextTicketId b u p.id codes (0 + 2) 1 now, payments := (updateTicketTierSoldCount { tiers := (updatePaymentVerify s p.id pid sig now).tiers, tickets := (updatePaymentVerify s p.id pid sig now).tickets ++ mkIssuedTickets (updatePaymentVerify s p.id pid sig now).nextTicketId a u p.id codes 0 2 now, payments := (updatePaymentVerify s p.id pid sig now).payments, entryScans := (updatePaymentVerify s p.id pid sig now).entryScans, nextTicketId := (updatePaymentVerify s p.id pid sig now).nextTicketId + 2, nextPaymentId := (updatePaymentVerify s p.id pid sig now).nextPaymentId } a 2).1.payments, entryScans := (updateTicketTierSoldCount { tiers := (updatePaymentVerify s p.id pid sig now).tiers, tickets := (updatePaymentVerify s p.id pid sig now).tickets ++ mkIssuedTickets (updatePaymentVerify s p.id pid sig now).nextTicketId a u p.id codes 0 2 now, payments := (updatePaymentVerify s p.id pid sig now).payments, entryScans := (updatePaymentVerify s p.id pid sig now).entryScans, nextTicketId := (updatePaymentVerify s p.id pid sig now).nextTicketId + 2, nextPaymentId := (updatePaymentVerify s p.id pid sig now).nextPaymentId } a 2).1.entryScans, nextTicketId := (updateTicketTierSoldCount { tiers := (updatePaymentVerify s p.id pid sig now).tiers, tickets := (updatePaymentVerify s p.id pid sig now).tickets ++ mkIssuedTickets (updatePaymentVerify s p.id pid sig now).nextTicketId a u p.id codes 0 2 now, payments := (updatePaymentVerify s p.id pid sig now).payments, entryScans := (updatePaymentVerify s p.id pid sig now).entryScans, nextTicketId := (updatePaymentVerify s p.id pid sig now).nextTicketId + 2, nextPaymentId := (updatePaymentVerify s p.id pid sig now).nextPaymentId } a 2).1.nextTicketId + 1, nextPaymentId := (updateTicketTierSoldCount { tiers := (updatePaymentVerify s p.id pid sig now).tiers, tickets := (updatePaymentVerify s p.id pid sig now).tickets ++ mkIssuedTickets (updatePaymentVerify s p.id pid sig now).nextTicketId a u p.id codes 0 2 now, payments := (updatePaymentVerify s p.id pid sig now).payments, entryScans := (updatePaymentVerify s p.id pid sig now).entryScans, nextTicketId := (updatePaymentVerify s p.id pid sig now).nextTicketId + 2, nextPaymentId := (updatePaymentVerify s p.id pid sig now).nextPaymentId } a 2).1.nextPaymentId } (updateTicketTierSoldCount { tiers := (updatePaymentVerify s p.id pid sig now).tiers, tickets := (updatePaymentVerify s p.id pid sig now).tickets ++ mkIssuedTickets (updatePaymentVerify s p.id pid sig now).nextTicketId a u p.id codes 0 2 now, payments := (updatePaymentVerify s p.id pid sig now).payments, entryScans := (updatePaymentVerify s p.id pid sig now).entryScans, nextTicketId := (updatePaymentVerify s p.id pid sig now).nextTicketId + 2, nextPaymentId := (updatePaymentVerify s p.id pid sig now).nextPaymentId } a 2).1 rfl b]
    rw [getTicketTier_updateSoldCount]
    rw [getTicketTier_ext { tiers := (updatePaymentVerify s p.id pid sig now).tiers, tickets := (updatePaymentVerify s p.id pid sig now).tickets ++ mkIssuedTickets (updatePaymentVerify s p.id pid sig now).nextTicketId a u p.id codes 0 2 now, payments := (updatePaymentVerify s p.id pid sig now).payments, entryScans := (updatePaymentVerify s p.id pid sig now).entryScans, nextTicketId := (updatePaymentVerify s p.id pid sig now).nextTicketId + 2, nextPaymentId := (updatePaymentVerify s p.id pid sig now).nextPaymentId } s rfl b]
    rw [htB]
    simp [hidB, hab.symm]


/-- Tier "TA" for the C6 witness (capacity 10, 4 sold). -/
def c6TierA : TicketTier :=
  { id := "TA", eventId := "E1", price := 3, quantity := 10, soldCount := 4, isActive := true }

/-- Tier "TB" for the C6 witness (capacity 5, none sold). -/
def c6TierB : TicketTier :=
  { id := "TB", eventId := "E1", price := 7, quantity := 5, soldCount := 0, isActive := true }

/-- The payment for the C6 witness: cart of 2 units of "TA" and 1 of "TB". -/
def c6Payment : Payment :=
  { id := "0"
    userId := "u1"
    eventId := "E1"
    razorpayOrderId := some "order_0"
    razorpayPaymentId := none
    razorpaySignature := none
    amount := 13
    ticketQuantity := 3
    status := PaymentStatus.pending
    items := [{ tierId := "TA", quantity := 2, price := 3 },
              { tierId := "TB", quantity := 1, price := 7 }]
    completedAt := none }

/-- The store for the C6 witness. -/
def c6Store : Store :=
  { tiers := [c6TierA, c6TierB], tickets := [], payments := [c6Payment], entryScans := [],
    nextTicketId := 0, nextPaymentId := 1 }

/-- The code-generator draws for the C6 witness: three distinct codes. -/
def c6codes : Nat → String := fun n =>
  match n with
  | 0 => "AAAA2222"
  | 1 => "BBBB3333"
  | _ => "CCCC4444"

/-- Witness for C6: confirming the concrete cart [2 x "TA", 1 x "TB"] creates
exactly the three expected confirmed rows and bumps the two sold counts. -/
theorem issuance_one_ticket_per_unit_witness :
    (verifyPayment c6Store "u1" "order_0" "pay1" "sig" c6codes 40).2
        = VerifyPaymentResult.ok
            [{ id := 0
               ticketTierId := "TA"
               userId := "u1"
               paymentId := some "0"
               ticketCode := "AAAA2222"
               status := TicketStatus.confirmed
               scannedAt := none
               scannedByUserId := none
               purchasedAt := some 40 },
             { id := 1
               ticketTierId := "TA"
               userId := "u1"
               paymentId := some "0"
               ticketCode := "BBBB3333"
               status := TicketStatus.confirmed
               scannedAt := none
               scannedByUserId := none
               purchasedAt := some 40 },
             { id := 2
               ticketTierId := "TB"
               userId := "u1"
               paymentId := some "0"
               ticketCode := "CCCC4444"
               status := TicketStatus.confirmed
               scannedAt := none
               scannedByUserId := none
               purchasedAt := some 40 }] ∧
    ((verifyPayment c6Store "u1" "order_0" "pay1" "sig" c6codes 40).1).tickets
        = c6Store.tickets ++
            [{ id := 0
               ticketTierId := "TA"
               userId := "u1"
               paymentId := some "0"
               ticketCode := "AAAA2222"
               status := TicketStatus.confirmed
               scannedAt := none
               scannedByUserId := none
               purchasedAt := some 40 },
             { id := 1
               ticketTierId := "TA"
               userId := "u1"
               paymentId := some "0"
               ticketCode := "BBBB3333"
               status := TicketStatus.confirmed
               scannedAt := none
               scannedByUserId := none
               purchasedAt := some 40 },
             { id := 2
               ticketTierId := "TB"
               userId := "u1"
               paymentId := some "0"
               ticketCode := "CCCC4444"
               status := TicketStatus.confirmed
               scannedAt := none
               scannedByUserId := none
               purchasedAt := some 40 }] ∧
    getTicketTier ((verifyPayment c6Store "u1" "order_0" "pay1" "sig" c6codes 40).1) "TA"
        = some { c6TierA with soldCount := c6TierA.soldCount + 2 } ∧
    getTicketTier ((verifyPayment c6Store "u1" "order_0" "pay1" "sig" c6codes 40).1) "TB"
        = some { c6TierB with soldCount := c6TierB.soldCount + 1 } :=
  issuance_one_ticket_per_unit c6Store "u1" "order_0" "pay1" "sig" c6codes 40
    c6Payment "TA" "TB" 3 7 c6TierA c6TierB rfl rfl (by decide) rfl rfl
    (by decide) (by decide) (by unfold FreshCodes; decide)

/-- C9 amended: a ticket-code collision is not retried.  When the first
freshly generated code equals the code of a ticket already persisted, the
`createTicket` insert violates the unique `ticket_code` index, the exception
reaches the route's catch block, and the whole purchase verification fails
with a server error — `generateTicketCode` is never re-sampled. -/
theorem code_collision_causes_server_error (s : Store) (u oid pid sig : String)
    (codes : Nat → String) (now : Nat) (p : Payment) (tid : String) (q : Nat) (pr : ℚ)
    (hp : getPaymentByRazorpayOrderId s oid = some p)
    (hitems : p.items = [{ tierId := tid, quantity := q, price := pr }])
    (hq : 0 < q)
    (hcollide : ∃ t ∈ s.tickets, t.ticketCode = codes 0) :
    (verifyPayment s u oid pid sig codes now).2 = VerifyPaymentResult.serverError := by
  obtain ⟨n, rfl⟩ : ∃ n, q = n + 1 := ⟨q - 1, by omega⟩
  have hcond : ((updatePaymentVerify s p.id pid sig now).tickets.any
      (fun t => t.ticketCode == codes 0)) = true := by
    obtain ⟨t, ht, hc⟩ := hcollide
    exact List.any_eq_true.mpr ⟨t, ht, by simp [hc]⟩
  have hct : createTicket (updatePaymentVerify s p.id pid sig now)
      { ticketTierId := tid, userId := u, paymentId := some p.id,
        ticketCode := codes 0, status := TicketStatus.confirmed,
        purchasedAt := some now }
      = Except.error "duplicate key value violates unique index ticket_code_idx" := by
    simp [createTicket, hcond]
  have hloopErr : createTicketsLoop (updatePaymentVerify s p.id pid sig now)
      u p.id tid (n + 1) codes 0 now
      = Sum.inr (updatePaymentVerify s p.id pid sig now) := by
    simp only [createTicketsLoop]
    rw [hct]
  simp only [verifyPayment, hp]
  rw [hitems]
  simp only [issueItems]
  rw [hloopErr]

/-- The ticket already persisted with code "AAAAAAAA" in the C9 store. -/
def c9Ticket : Ticket :=
  { id := 0
    ticketTierId := "T9"
    userId := "u0"
    paymentId := none
    ticketCode := "AAAAAAAA"
    status := TicketStatus.confirmed
    scannedAt := none
    scannedByUserId := none
    purchasedAt := some 1 }

/-- The pending payment of the C9 store: 1 unit of tier "T9", which has
plenty of remaining capacity. -/
def c9Payment : Payment :=
  { id := "1"
    userId := "u1"
    eventId := "E1"
    razorpayOrderId := some "order_1"
    razorpayPaymentId := none
    razorpaySignature := none
    amount := 4
    ticketQuantity := 1
    status := PaymentStatus.pending
    items := [{ tierId := "T9", quantity := 1, price := 4 }]
    completedAt := none }

/-- The store of the C9 theorems. -/
def c9Store : Store :=
  { tiers := [{ id := "T9", eventId := "E1", price := 4, quantity := 10, soldCount := 1, isActive := true }]
    tickets := [c9Ticket]
    payments := [c9Payment]
    entryScans := []
    nextTicketId := 1
    nextPaymentId := 2 }

/-- Counterexample for C9: the generator draws (all-zero randomness) produce
the code "AAAAAAAA", which collides with the persisted ticket of that code.
The tier has plenty of capacity, yet the purchase fails with a server error
and no ticket row is created: the code is not re-sampled and the purchase is
not retried, contradicting the claim. -/
theorem code_collision_fails_purchase_cex :
    generateTicketCode (fun _ => 0) = "AAAAAAAA" ∧
    getTicketByCode c9Store "AAAAAAAA" = some c9Ticket ∧
    (verifyPayment c9Store "u1" "order_1" "pay1" "sig"
        (fun _ => generateTicketCode (fun _ => 0)) 50).2
      = VerifyPaymentResult.serverError ∧
    ((verifyPayment c9Store "u1" "order_1" "pay1" "sig"
        (fun _ => generateTicketCode (fun _ => 0)) 50).1).tickets.length = 1 := by
  refine ⟨by decide, rfl, by decide, by decide⟩

/-- Witness for C9 amended: the collision on "AAAAAAAA" makes the concrete
verification request fail with a server error. -/
theorem code_collision_causes_server_error_witness :
    (verifyPayment c9Store "u1" "order_1" "pay1" "sig"
        (fun _ => generateTicketCode (fun _ => 0)) 50).2
      = VerifyPaymentResult.serverError :=
  code_collision_causes_server_error c9Store "u1" "order_1" "pay1" "sig"
    (fun _ => generateTicketCode (fun _ => 0)) 50 c9Payment "T9" 1 4
    rfl rfl (by decide) (by decide)

/-- C10: `POST /api/payments/create-order` computes the payment amount
entirely from the client-supplied request items — the response amount and
the stored amount both equal the sum of `item.price * item.quantity` over
the request's items — stores the client items verbatim in the pending
payment's metadata, and never consults the stored TicketTier table (its
result is unchanged under any replacement of the tiers table). -/
theorem createOrder_amount_from_client_items (s : Store) (userId eventId : String)
    (items : List CartItem) :
    ((createOrder s userId eventId items).2.amount
        = items.foldl (fun acc item => acc + item.price * (item.quantity : ℚ)) 0) ∧
    (∃ p : Payment,
        ((createOrder s userId eventId items).1).payments.getLast? = some p ∧
        p.items = items ∧
        p.amount = items.foldl (fun acc item => acc + item.price * (item.quantity : ℚ)) 0 ∧
        p.status = PaymentStatus.pending ∧
        p.ticketQuantity = items.foldl (fun acc item => acc + item.quantity) 0) ∧
    (∀ tiers2 : List TicketTier,
        (createOrder { s with tiers := tiers2 } userId eventId items).2
          = (createOrder s userId eventId items).2 ∧
        ((createOrder { s with tiers := tiers2 } userId eventId items).1).payments
          = ((createOrder s userId eventId items).1).payments) := by
  refine ⟨rfl, ?_, fun tiers2 => ⟨rfl, rfl⟩⟩
  refine ⟨{ id := toString s.nextPaymentId
            userId := userId
            eventId := eventId
            razorpayOrderId := some ("order_" ++ toString s.nextPaymentId)
            razorpayPaymentId := none
            razorpaySignature := none
            amount := items.foldl (fun acc item => acc + item.price * (item.quantity : ℚ)) 0
            ticketQuantity := items.foldl (fun acc item => acc + item.quantity) 0
            status := PaymentStatus.pending
            items := items
            completedAt := none }, ?_, rfl, rfl, rfl, rfl⟩
  simp only [createOrder, createPayment, updatePaymentOrderId]
  rw [List.map_append]
  simp only [List.map_cons, List.map_nil]
  rw [List.getLast?_concat]
  simp

end EventTicket
